import Mathlib

/-!
Verification of the trust-and-sandbox core of nanoclaw.

Shallow embedding of the TypeScript sources:
  - src/utils.ts           (normalizeJid, loadJson)
  - src/user-registry.ts   (loadUserRegistry, getUserTier)
  - src/authorization.ts   (canInvoke, hasStrangers, determineAgentContext)
  - src/index.ts           (IPC watcher: message queue, task queue, processTaskIpc)
  - src/container-runner.ts (buildVolumeMounts, runContainerAgent result handling)

File-system reads, the JSON library, the cron library and Date parsing are
external to the repository; they are modelled as explicit parameters
(an Option-valued file content, Option-valued parsers).  Logging calls are
side-effect-only in the source and are dropped.  String splitting and
trimming are implemented structurally over character lists so that every
definition evaluates inside the kernel.
-/

namespace NanoClaw

/-- Tier of a principal, src/types.ts: UserTier. -/
inductive UserTier
  | owner
  | family
  | friend
  | stranger
deriving DecidableEq, Fintype

/-- Execution-context tier, src/types.ts: ContextTier. -/
inductive ContextTier
  | owner
  | family
  | friend
deriving DecidableEq, Fintype

/-- Split of a character list at every occurrence of a separator character;
the JS String.split with a one-character separator.  Splitting the empty
string gives one empty component, as in JS. -/
def splitChars (sep : Char) : List Char → List (List Char)
  | [] => [[]]
  | c :: rest =>
    let tail := splitChars sep rest
    if c == sep then [] :: tail
    else
      match tail with
      | [] => [[c]]
      | t :: ts => (c :: t) :: ts

/-- String wrapper around splitChars. -/
def jsSplit (s : String) (sep : Char) : List String :=
  (splitChars sep s.toList).map (fun cs => String.mk cs)

/-- Embeds normalizeJid of src/utils.ts (duplicated verbatim in
src/user-registry.ts and src/authorization.ts): drop the part of the local
part after the first colon, keep the domain.  JS split(sep, 2) keeps the
first two components, and an empty-string domain is falsy; both mirrored
here. -/
def normalizeJid (jid : String) : String :=
  let parts := jsSplit jid '@'
  let localPart := parts.headD ("")
  let domain := (parts.drop 1).headD ("")
  let normalizedLocal := (jsSplit localPart ':').headD ("")
  if domain != "" then normalizedLocal ++ "@" ++ domain else normalizedLocal

/-- Entry of the principal registry, src/types.ts: UserInfo. -/
structure UserInfo where
  jid : String
  name : String
  addedAt : String
  addedBy : Option String
deriving DecidableEq

/-- Principal registry as persisted in data/users.json, src/types.ts. -/
structure UserRegistry where
  owner : UserInfo
  family : List UserInfo
  friends : List UserInfo
deriving DecidableEq

/-- Embeds loadJson of src/utils.ts: the parsed file content when the file
exists and parses, the default otherwise.  The file-system read and the JSON
parse are collapsed into the Option argument. -/
def loadJson {α : Type} (fileContent : Option α) (defaultValue : α) : α :=
  fileContent.getD defaultValue

/-- Default registry used by loadUserRegistry when data/users.json is absent
or corrupt, src/user-registry.ts lines 28-40. -/
def defaultRegistry : UserRegistry :=
  { owner := { jid := "", name := "", addedAt := "", addedBy := none },
    family := [], friends := [] }

/-- Embeds loadUserRegistry of src/user-registry.ts. -/
def loadUserRegistry (registryFile : Option UserRegistry) : UserRegistry :=
  loadJson registryFile defaultRegistry

/-- Embeds getUserTierFromRegistry of src/user-registry.ts: owner when the
owner jid is set (JS truthiness of the string) and matches after
normalization, then family membership, then friends membership, else
stranger. -/
def getUserTierFromRegistry (normalizedJid : String) (registry : UserRegistry) : UserTier :=
  if registry.owner.jid != "" && normalizeJid registry.owner.jid == normalizedJid then
    UserTier.owner
  else if registry.family.any (fun user => normalizeJid user.jid == normalizedJid) then
    UserTier.family
  else if registry.friends.any (fun user => normalizeJid user.jid == normalizedJid) then
    UserTier.friend
  else
    UserTier.stranger

/-- Embeds getUserTier of src/user-registry.ts: normalize, load the registry
from disk, classify.  The disk content is the explicit first argument. -/
def getUserTier (registryFile : Option UserRegistry) (jid : String) : UserTier :=
  getUserTierFromRegistry (normalizeJid jid) (loadUserRegistry registryFile)

/-- Printable tier name, for the reason strings of canInvoke. -/
def tierName : UserTier → String
  | UserTier.owner => "owner"
  | UserTier.family => "family"
  | UserTier.friend => "friend"
  | UserTier.stranger => "stranger"

/-- Result of canInvoke, src/types.ts: AuthorizationResult. -/
structure AuthorizationResult where
  tier : UserTier
  canInvoke : Bool
  reason : String
deriving DecidableEq

/-- Embeds canInvoke of src/authorization.ts lines 54-83.  The isGroupChat
argument is only logged in the source and does not feed the result. -/
def canInvoke (registryFile : Option UserRegistry) (senderJid : String)
    (isGroupChat : Bool) : AuthorizationResult :=
  let _ := isGroupChat
  let normalizedJid := normalizeJid senderJid
  let tier := getUserTier registryFile normalizedJid
  let can := tier == UserTier.owner || tier == UserTier.family
  { tier := tier
    canInvoke := can
    reason :=
      if can then tierName tier ++ " tier user can invoke Jarvis"
      else tierName tier ++ " tier users cannot invoke Jarvis" }

/-- Baseline context inferred from the sender tier, the first half of
determineAgentContext, src/authorization.ts lines 174-182. -/
def inferredContextTierOf (senderTier : UserTier) : ContextTier :=
  if senderTier == UserTier.owner then ContextTier.owner
  else if senderTier == UserTier.family then ContextTier.family
  else ContextTier.friend

/-- Position of a context tier in the contextPriority array
[owner, family, friend] of src/authorization.ts line 187 (indexOf). -/
def ctxIndex : ContextTier → Nat
  | ContextTier.owner => 0
  | ContextTier.family => 1
  | ContextTier.friend => 2

/-- Subscript into the contextPriority array [owner, family, friend] of
src/authorization.ts line 193; indices beyond 2 cannot occur there. -/
def ctxOfIndex (i : Nat) : ContextTier :=
  if i == 0 then ContextTier.owner
  else if i == 1 then ContextTier.family
  else ContextTier.friend

/-- Embeds determineAgentContext of src/authorization.ts lines 168-217:
infer the baseline from the sender tier; with a group override take the
most restrictive (largest index) of the two. -/
def determineAgentContext (senderTier : UserTier)
    (groupContextTier : Option ContextTier) : ContextTier :=
  let inferredContextTier := inferredContextTierOf senderTier
  match groupContextTier with
  | some g =>
    let senderIndex := ctxIndex inferredContextTier
    let groupIndex := ctxIndex g
    let effectiveIndex := max senderIndex groupIndex
    ctxOfIndex effectiveIndex
  | none => inferredContextTier

/-- Entry of the in-memory stranger cache, src/authorization.ts lines 13-17.
participants holds the normalized snapshot taken when the entry was
written. -/
structure StrangerCacheEntry where
  hasStrangers : Bool
  lastChecked : Nat
  participants : List String
deriving DecidableEq

/-- The stranger cache is a map from normalized group jid to entry,
src/authorization.ts line 24; modelled as an association list. -/
abbrev StrangerCache := List (String × StrangerCacheEntry)

/-- Cache TTL, src/authorization.ts line 29: 5 minutes in milliseconds. -/
def CACHE_TTL : Nat := 300000

/-- Map.get of the stranger cache. -/
def cacheGet (cache : StrangerCache) (key : String) : Option StrangerCacheEntry :=
  (cache.find? (fun kv => kv.1 == key)).map (fun kv => kv.2)

/-- Map.set of the stranger cache: overwrite the entry when the key is
present, append it otherwise. -/
def cacheSet (cache : StrangerCache) (key : String) (value : StrangerCacheEntry) :
    StrangerCache :=
  if cache.any (fun kv => kv.1 == key) then
    cache.map (fun kv => if kv.1 == key then (key, value) else kv)
  else
    cache ++ [(key, value)]

/-- Embeds the participantsChanged test of src/authorization.ts lines
109-111: changed when the lengths differ or some participant normalizes to
an identity missing from the cached (already normalized) snapshot.  Note
this is an inclusion test, not set equality. -/
def participantsChanged (participants : List String) (cached : StrangerCacheEntry) : Bool :=
  participants.length != cached.participants.length ||
    participants.any (fun p => !(cached.participants.contains (normalizeJid p)))

/-- Fresh classification pass of src/authorization.ts lines 129-138: true
when any normalized participant classifies as stranger against the registry
on disk. -/
def freshStrangerScan (registryFile : Option UserRegistry)
    (participants : List String) : Bool :=
  (participants.map normalizeJid).any
    (fun p => getUserTier registryFile p == UserTier.stranger)

/-- Embeds hasStrangers of src/authorization.ts lines 94-157 as a state
passing function: the registry file stands for the disk reads done by
getUserTier, now for Date.now(), and the cache is threaded explicitly.
Returns the answer and the cache after the call. -/
def hasStrangers (registryFile : Option UserRegistry) (cache : StrangerCache)
    (now : Nat) (groupJid : String) (participants : List String)
    (forceRefresh : Bool) : Bool × StrangerCache :=
  let normalizedGroupJid := normalizeJid groupJid
  let cachedAnswer : Option Bool :=
    if forceRefresh then none
    else
      match cacheGet cache normalizedGroupJid with
      | none => none
      | some cached =>
        let age := now - cached.lastChecked
        if age < CACHE_TTL then
          if participantsChanged participants cached then none
          else some cached.hasStrangers
        else none
  match cachedAnswer with
  | some answer => (answer, cache)
  | none =>
    let foundStranger := freshStrangerScan registryFile participants
    (foundStranger,
      cacheSet cache normalizedGroupJid
        { hasStrangers := foundStranger, lastChecked := now,
          participants := participants.map normalizeJid })

/-- Registry used in the stranger-cache scenario: the two identities a and b
are known (owner and family). -/
def reg1 : UserRegistry :=
  { owner := { jid := "a", name := "A", addedAt := "", addedBy := none },
    family := [{ jid := "b", name := "B", addedAt := "", addedBy := none }],
    friends := [] }

/-- Cache state after a first hasStrangers call on group g with participants
[a, b] at time 0 against reg1: no stranger, snapshot [a, b]. -/
def cacheAfterFirst : StrangerCache :=
  [("g", { hasStrangers := false, lastChecked := 0, participants := ["a", "b"] })]

/-- C1: For every sender tier and every optional group context tier,
determineAgentContext returns a context tier that is never less restrictive
(never a smaller contextPriority index) than the tier inferred from the
sender alone; in particular a friend- or stranger-tier sender always gets the
friend context, whatever the group override. -/
theorem determineAgentContext_never_elevates :
    ∀ (senderTier : UserTier) (groupContextTier : Option ContextTier),
      ctxIndex (inferredContextTierOf senderTier) ≤
        ctxIndex (determineAgentContext senderTier groupContextTier) ∧
      determineAgentContext UserTier.friend groupContextTier = ContextTier.friend ∧
      determineAgentContext UserTier.stranger groupContextTier = ContextTier.friend := by
  decide

/-- C2: an identity whose normalized form matches neither the loaded
registry's owner nor any family or friend member classifies as stranger; and
when the registry file is absent or fails to parse, every identity
classifies as stranger. -/
theorem getUserTier_stranger_by_default :
    (∀ (registryFile : Option UserRegistry) (jid : String),
      (normalizeJid jid ≠ normalizeJid (loadUserRegistry registryFile).owner.jid ∧
        (∀ u ∈ (loadUserRegistry registryFile).family,
          normalizeJid jid ≠ normalizeJid u.jid) ∧
        (∀ u ∈ (loadUserRegistry registryFile).friends,
          normalizeJid jid ≠ normalizeJid u.jid)) →
      getUserTier registryFile jid = UserTier.stranger) ∧
    (∀ jid : String, getUserTier none jid = UserTier.stranger) := by
  constructor
  · intro registryFile jid h
    obtain ⟨ho, hf, hr⟩ := h
    show getUserTierFromRegistry (normalizeJid jid) (loadUserRegistry registryFile) = _
    unfold getUserTierFromRegistry
    have hob : (normalizeJid (loadUserRegistry registryFile).owner.jid ==
        normalizeJid jid) = false :=
      beq_eq_false_iff_ne.mpr (fun hc => ho hc.symm)
    have c1 : ((loadUserRegistry registryFile).owner.jid != "" &&
        (normalizeJid (loadUserRegistry registryFile).owner.jid == normalizeJid jid)) =
          false := by
      rw [hob, Bool.and_false]
    have c2 : ((loadUserRegistry registryFile).family.any
        (fun user => normalizeJid user.jid == normalizeJid jid)) = false := by
      rw [List.any_eq_false]
      intro u hu
      have : (normalizeJid u.jid == normalizeJid jid) = false :=
        beq_eq_false_iff_ne.mpr (fun hc => hf u hu hc.symm)
      simp [this]
    have c3 : ((loadUserRegistry registryFile).friends.any
        (fun user => normalizeJid user.jid == normalizeJid jid)) = false := by
      rw [List.any_eq_false]
      intro u hu
      have : (normalizeJid u.jid == normalizeJid jid) = false :=
        beq_eq_false_iff_ne.mpr (fun hc => hr u hu hc.symm)
      simp [this]
    simp [c1, c2, c3]
  · intro jid
    rfl

/-- Closed instance of getUserTier_stranger_by_default: a registry holding an
owner, one family member and one friend classifies an unrelated identity as
stranger, and the absent registry classifies it as stranger. -/
theorem getUserTier_stranger_by_default_witness :
    getUserTier
      (some { owner := { jid := "111@s.net", name := "O", addedAt := "", addedBy := none },
              family := [{ jid := "222@s.net", name := "F", addedAt := "", addedBy := none }],
              friends := [{ jid := "333@s.net", name := "G", addedAt := "", addedBy := none }] })
      ("999:1@s.net") = UserTier.stranger ∧
    getUserTier none ("999:1@s.net") = UserTier.stranger :=
  ⟨getUserTier_stranger_by_default.1
      (some { owner := { jid := "111@s.net", name := "O", addedAt := "", addedBy := none },
              family := [{ jid := "222@s.net", name := "F", addedAt := "", addedBy := none }],
              friends := [{ jid := "333@s.net", name := "G", addedAt := "", addedBy := none }] })
      ("999:1@s.net") (by decide),
    getUserTier_stranger_by_default.2 ("999:1@s.net")⟩

/-- C8: canInvoke grants the invoke permission exactly to identities whose
classified tier is owner or family; friend- and stranger-tier identities
never get it. -/
theorem canInvoke_iff_owner_or_family :
    ∀ (registryFile : Option UserRegistry) (senderJid : String) (isGroupChat : Bool),
      (canInvoke registryFile senderJid isGroupChat).canInvoke = true ↔
        ((canInvoke registryFile senderJid isGroupChat).tier = UserTier.owner ∨
          (canInvoke registryFile senderJid isGroupChat).tier = UserTier.family) := by
  intro registryFile senderJid isGroupChat
  simp only [canInvoke]
  cases getUserTier registryFile (normalizeJid senderJid) <;> simp

/-- C10: the result of canInvoke does not depend on the isGroupChat argument
at all: tier, flag and reason are identical for any two values of it. -/
theorem canInvoke_ignores_isGroupChat :
    ∀ (registryFile : Option UserRegistry) (senderJid : String) (b1 b2 : Bool),
      canInvoke registryFile senderJid b1 = canInvoke registryFile senderJid b2 := by
  intro registryFile senderJid b1 b2
  rfl

/-- C3 counterexample: the cache invalidation of hasStrangers is not set
equality.  After caching snapshot [a, b] (answer false), a call within the
TTL with participants [a, a] — whose normalized identity set differs from
the snapshot's — still returns the cached false without reclassifying, even
though a fresh classification pass against the current (now empty) registry
would find a stranger and answer true. -/
theorem hasStrangers_not_set_equality :
    (hasStrangers (some reg1) [] 0 ("g") ["a", "b"] false).2 = cacheAfterFirst ∧
    (["a", "a"].map normalizeJid).toFinset ≠ (["a", "b"].map normalizeJid).toFinset ∧
    freshStrangerScan none ["a", "a"] = true ∧
    (hasStrangers none cacheAfterFirst 1000 ("g") ["a", "a"] false).1 = false ∧
    (hasStrangers none cacheAfterFirst 1000 ("g") ["a", "a"] false).2 = cacheAfterFirst := by
  refine ⟨by decide, by decide, by decide, by decide, by decide⟩

/-- C3 as amended: for a call without forceRefresh that finds a cache entry
for the normalized group jid aged below the TTL, the answer is the cached
one — returned without consulting the registry at all — exactly when the
participant list has the snapshot's length and every participant's
normalized identity appears in the snapshot (the source's inclusion test,
not set equality); otherwise the call reclassifies every participant against
the registry and overwrites the cache entry. -/
theorem hasStrangers_cache_semantics
    (registryFile : Option UserRegistry) (cache : StrangerCache) (now : Nat)
    (groupJid : String) (participants : List String) (cached : StrangerCacheEntry)
    (hget : cacheGet cache (normalizeJid groupJid) = some cached)
    (httl : now - cached.lastChecked < CACHE_TTL) :
    (participantsChanged participants cached = false →
      hasStrangers registryFile cache now groupJid participants false =
        (cached.hasStrangers, cache)) ∧
    (participantsChanged participants cached = true →
      hasStrangers registryFile cache now groupJid participants false =
        (freshStrangerScan registryFile participants,
          cacheSet cache (normalizeJid groupJid)
            { hasStrangers := freshStrangerScan registryFile participants,
              lastChecked := now,
              participants := participants.map normalizeJid })) := by
  constructor
  · intro hch
    simp [hasStrangers, hget, httl, hch]
  · intro hch
    simp [hasStrangers, hget, httl, hch]

/-- Closed instance of hasStrangers_cache_semantics: within the TTL, the
unchanged list [a, a] (inclusion test passes) hits the cache, while the list
[c] (c missing from the snapshot) forces a fresh scan that finds the
stranger c and rewrites the cache entry. -/
theorem hasStrangers_cache_semantics_witness :
    hasStrangers none cacheAfterFirst 1000 ("g") ["a", "a"] false =
      (false, cacheAfterFirst) ∧
    hasStrangers none cacheAfterFirst 1000 ("g") ["c"] false =
      (freshStrangerScan none ["c"],
        cacheSet cacheAfterFirst (normalizeJid ("g"))
          { hasStrangers := freshStrangerScan none ["c"], lastChecked := 1000,
            participants := ["c"].map normalizeJid }) :=
  ⟨(hasStrangers_cache_semantics none cacheAfterFirst 1000 ("g") ["a", "a"]
      { hasStrangers := false, lastChecked := 0, participants := ["a", "b"] }
      (by decide) (by decide)).1 (by decide),
    (hasStrangers_cache_semantics none cacheAfterFirst 1000 ("g") ["c"]
      { hasStrangers := false, lastChecked := 0, participants := ["a", "b"] }
      (by decide) (by decide)).2 (by decide)⟩

/-- Additional mount request, src/types.ts: AdditionalMount. -/
structure AdditionalMount where
  hostPath : String
  containerPath : String
  readonly : Option Bool
deriving DecidableEq

/-- Container configuration of a registered group, src/types.ts:
ContainerConfig.  The env record is carried opaquely as key/value pairs. -/
structure ContainerConfig where
  additionalMounts : Option (List AdditionalMount)
  timeout : Option Nat
  env : Option (List (String × String))
deriving DecidableEq

/-- Registered principal group, src/types.ts: RegisteredGroup. -/
structure RegisteredGroup where
  name : String
  folder : String
  trigger : String
  added_at : String
  contextTier : Option ContextTier
  containerConfig : Option ContainerConfig
deriving DecidableEq

/-- The registeredGroups record of src/index.ts line 57: chat jid keyed map
of registered groups, modelled as an association list. -/
abbrev GroupsMap := List (String × RegisteredGroup)

/-- Lookup registeredGroups[jid]. -/
def lookupGroup (registeredGroups : GroupsMap) (jid : String) :
    Option RegisteredGroup :=
  (registeredGroups.find? (fun kv => kv.1 == jid)).map (fun kv => kv.2)

/-- JS truthiness of an optional string field: present and non-empty. -/
def truthy : Option String → Bool
  | none => false
  | some s => s != ""

/-- Fields of an IPC message-queue payload read by the watcher,
src/index.ts lines 495-517: type, chatJid, text.  senderIdentity stands for
any identity field a sandbox could place inside the payload; the source
never reads one. -/
structure MessageIpcData where
  type : String
  chatJid : Option String
  text : Option String
  senderIdentity : Option String
deriving DecidableEq

/-- Effect of processing one message-queue payload. -/
inductive MessageIpcAction
  | sent (chatJid text : String)
  | blocked
  | skipped
deriving DecidableEq

/-- Embeds the message branch of the IPC watcher, src/index.ts lines
495-517: a type message payload with truthy chatJid and text is sent when
the source directory is the main group folder, or when the target chat jid
is a registered group whose folder equals the source directory; otherwise it
is blocked.  Payloads failing the field guard are skipped (and the file
deleted either way). -/
def processMessageIpc (registeredGroups : GroupsMap) (mainGroupFolder : String)
    (sourceGroup : String) (data : MessageIpcData) : MessageIpcAction :=
  let isMain := sourceGroup == mainGroupFolder
  if data.type == "message" && truthy data.chatJid && truthy data.text then
    let chatJid := data.chatJid.getD ("")
    let targetGroup := lookupGroup registeredGroups chatJid
    if isMain ||
        (match targetGroup with
          | some g => g.folder == sourceGroup
          | none => false) then
      MessageIpcAction.sent chatJid (data.text.getD (""))
    else
      MessageIpcAction.blocked
  else
    MessageIpcAction.skipped

/-- C5: an IPC message-queue entry of type message from namespace directory
sourceGroup requesting a send to chatJid is sent exactly when sourceGroup is
the main group folder or chatJid is a registered group whose folder equals
sourceGroup; and the decision never reads an identity field inside the
payload (two payloads differing only there are treated identically). -/
theorem processMessageIpc_directory_is_authority
    (registeredGroups : GroupsMap) (mainGroupFolder sourceGroup : String)
    (data : MessageIpcData) (chatJid text : String) (s1 s2 : Option String)
    (htype : data.type = "message") (hjid : data.chatJid = some chatJid)
    (hjne : chatJid ≠ "") (htext : data.text = some text) (htne : text ≠ "") :
    (processMessageIpc registeredGroups mainGroupFolder sourceGroup data =
        MessageIpcAction.sent chatJid text ↔
      (sourceGroup = mainGroupFolder ∨
        ∃ g, lookupGroup registeredGroups chatJid = some g ∧
          g.folder = sourceGroup)) ∧
    processMessageIpc registeredGroups mainGroupFolder sourceGroup
        { data with senderIdentity := s1 } =
      processMessageIpc registeredGroups mainGroupFolder sourceGroup
        { data with senderIdentity := s2 } := by
  constructor
  · by_cases hmain : sourceGroup = mainGroupFolder
    · simp [processMessageIpc, truthy, htype, hjid, htext, hjne, htne, hmain]
    · rcases hlook : lookupGroup registeredGroups chatJid with _ | g
      · simp [processMessageIpc, truthy, htype, hjid, htext, hjne, htne, hmain, hlook]
      · by_cases hfold : g.folder = sourceGroup
        · simp [processMessageIpc, truthy, htype, hjid, htext, hjne, htne, hmain,
            hlook, hfold]
        · simp [processMessageIpc, truthy, htype, hjid, htext, hjne, htne, hmain,
            hlook, hfold]
  · rfl

/-- Closed instance of processMessageIpc_directory_is_authority: group gB
(folder B) sends to its own registered chat jid and the message goes out. -/
theorem processMessageIpc_directory_is_authority_witness :
    processMessageIpc
      [("123@g.us",
        { name := "B", folder := "B", trigger := "@ai", added_at := "",
          contextTier := some ContextTier.friend, containerConfig := none })]
      ("main") ("B")
      { type := "message", chatJid := some ("123@g.us"), text := some ("hi"),
        senderIdentity := some ("spoofed-owner") } =
      MessageIpcAction.sent ("123@g.us") ("hi") :=
  (processMessageIpc_directory_is_authority
      [("123@g.us",
        { name := "B", folder := "B", trigger := "@ai", added_at := "",
          contextTier := some ContextTier.friend, containerConfig := none })]
      ("main") ("B")
      { type := "message", chatJid := some ("123@g.us"), text := some ("hi"),
        senderIdentity := some ("spoofed-owner") }
      ("123@g.us") ("hi") none none rfl rfl (by decide) rfl (by decide)).1.mpr
    (Or.inr ⟨_, rfl, rfl⟩)

/-- Scheduled task row, src/types.ts: ScheduledTask.  schedule_type,
context_mode and status are kept as raw strings, as the IPC payload casts
them unchecked in the source. -/
structure ScheduledTask where
  id : String
  group_folder : String
  chat_jid : String
  prompt : String
  schedule_type : String
  schedule_value : String
  context_mode : String
  next_run : Option String
  status : String
  created_at : String
deriving DecidableEq

/-- Embeds getTaskById of src/db.ts over the scheduled_tasks table modelled
as a list of rows. -/
def getTaskById (tasks : List ScheduledTask) (id : String) : Option ScheduledTask :=
  tasks.find? (fun t => t.id == id)

/-- Embeds updateTask of src/db.ts for the status-only updates issued by
pause_task and resume_task: set the status column of the matching row. -/
def updateTaskStatus (tasks : List ScheduledTask) (id : String) (status : String) :
    List ScheduledTask :=
  tasks.map (fun t => if t.id == id then { t with status := status } else t)

/-- Embeds deleteTask of src/db.ts: remove the matching row. -/
def deleteTask (tasks : List ScheduledTask) (id : String) : List ScheduledTask :=
  tasks.filter (fun t => !(t.id == id))

/-- Embeds createTask of src/db.ts: insert a row. -/
def createTask (tasks : List ScheduledTask) (task : ScheduledTask) : List ScheduledTask :=
  tasks ++ [task]

/-- Fields of an IPC task-queue payload, src/index.ts lines 580-599
(restricted to the fields the task commands read). -/
structure TaskIpcData where
  type : String
  taskId : Option String
  prompt : Option String
  schedule_type : Option String
  schedule_value : Option String
  context_mode : Option String
  groupFolder : Option String
deriving DecidableEq

/-- External helpers used by processTaskIpc that live outside the
repository: the cron-parser library, JS Date parsing and construction, and
the generated task id.  cronNext returns the next fire time of a cron
expression or none when parsing throws; parseDateIso returns the ISO string
of new Date(v) or none when its time is NaN; nowPlusIso is
new Date(Date.now() + ms).toISOString(). -/
structure IpcEnv where
  cronNext : String → Option String
  parseDateIso : String → Option String
  nowPlusIso : Int → String
  newTaskId : String
  nowIso : String

/-- JS parseInt(s, 10): skip leading whitespace, optional sign, then the
longest run of decimal digits; NaN (none) when there is no digit. -/
def parseIntJs (s : String) : Option Int :=
  let chars := s.toList.dropWhile (fun c => c == ' ' || c == '\t' || c == '\n' || c == '\r')
  let signed : Int × List Char :=
    match chars with
    | '-' :: rest => (-1, rest)
    | '+' :: rest => (1, rest)
    | rest => (1, rest)
  let digits := signed.2.takeWhile (fun c => c.isDigit)
  if digits.isEmpty then none
  else some (signed.1 * ((digits.foldl (fun acc c => acc * 10 + (c.toNat - 48)) 0 : Nat) : Int))

/-- Context tier a task-queue command acts with, src/index.ts lines 618-624:
the contextTier of the registered group whose folder is the source
directory, defaulting to friend. -/
def sourceContextTier (registeredGroups : GroupsMap) (sourceGroup : String) : ContextTier :=
  let group := (registeredGroups.map (fun kv => kv.2)).find?
    (fun g => g.folder == sourceGroup)
  (group.bind (fun g => g.contextTier)).getD ContextTier.friend

/-- The next_run value computed by the schedule_task branch, src/index.ts
lines 665-701: none when the branch breaks (invalid cron expression,
non-positive or unparsable interval, invalid timestamp); some nextRun when
creation proceeds.  A schedule_type outside the three kinds leaves nextRun
null and still creates the task, as the unchecked cast in the source does. -/
def scheduleNextRun (env : IpcEnv) (scheduleType scheduleValue : String) :
    Option (Option String) :=
  if scheduleType == "cron" then
    match env.cronNext scheduleValue with
    | some iso => some (some iso)
    | none => none
  else if scheduleType == "interval" then
    match parseIntJs scheduleValue with
    | none => none
    | some ms => if ms ≤ 0 then none else some (some (env.nowPlusIso ms))
  else if scheduleType == "once" then
    match env.parseDateIso scheduleValue with
    | some iso => some (some iso)
    | none => none
  else some none

/-- Embeds processTaskIpc of src/index.ts lines 579-941, restricted to its
effect on the scheduled_tasks table: schedule_task, pause_task, resume_task
and cancel_task read or write it; every other command type (refresh_groups,
register_group, user management, list_users, get_my_tier) leaves it
unchanged.  Truthiness guards on payload fields mirror the source. -/
def processTaskIpc (env : IpcEnv) (registeredGroups : GroupsMap)
    (tasks : List ScheduledTask) (data : TaskIpcData) (sourceGroup : String) :
    List ScheduledTask :=
  let contextTier := sourceContextTier registeredGroups sourceGroup
  let isOwner := contextTier == ContextTier.owner
  let isFamily := contextTier == ContextTier.family
  if data.type == "schedule_task" then
    if truthy data.prompt && truthy data.schedule_type && truthy data.schedule_value &&
        truthy data.groupFolder then
      let targetGroup := data.groupFolder.getD ("")
      if !isOwner && !isFamily then tasks
      else if !isOwner && targetGroup != sourceGroup then tasks
      else
        match (registeredGroups.find? (fun kv => kv.2.folder == targetGroup)).map
            (fun kv => kv.1) with
        | none => tasks
        | some targetJid =>
          let scheduleType := data.schedule_type.getD ("")
          let scheduleValue := data.schedule_value.getD ("")
          match scheduleNextRun env scheduleType scheduleValue with
          | none => tasks
          | some nextRun =>
            let contextMode :=
              if data.context_mode == some ("group") ||
                  data.context_mode == some ("isolated") then
                data.context_mode.getD ("isolated")
              else "isolated"
            createTask tasks
              { id := env.newTaskId, group_folder := targetGroup,
                chat_jid := targetJid, prompt := data.prompt.getD (""),
                schedule_type := scheduleType, schedule_value := scheduleValue,
                context_mode := contextMode, next_run := nextRun,
                status := "active", created_at := env.nowIso }
    else tasks
  else if data.type == "pause_task" then
    if truthy data.taskId then
      let taskId := data.taskId.getD ("")
      match getTaskById tasks taskId with
      | some task =>
        if isOwner || (isFamily && task.group_folder == sourceGroup) then
          updateTaskStatus tasks taskId ("paused")
        else tasks
      | none => tasks
    else tasks
  else if data.type == "resume_task" then
    if truthy data.taskId then
      let taskId := data.taskId.getD ("")
      match getTaskById tasks taskId with
      | some task =>
        if isOwner || (isFamily && task.group_folder == sourceGroup) then
          updateTaskStatus tasks taskId ("active")
        else tasks
      | none => tasks
    else tasks
  else if data.type == "cancel_task" then
    if truthy data.taskId then
      let taskId := data.taskId.getD ("")
      match getTaskById tasks taskId with
      | some task =>
        if isOwner || (isFamily && task.group_folder == sourceGroup) then
          deleteTask tasks taskId
        else tasks
      | none => tasks
    else tasks
  else tasks

/-- What the IPC watcher does with a task-queue file, src/index.ts lines
546-565: parse failure (or any exception) moves the file into the errors
directory under sourceGroup-fileName; a normal return of processTaskIpc —
including every authorization-denial branch, which only logs — deletes the
file. -/
inductive FileDisposition
  | deleted
  | quarantined (fileName : String)
deriving DecidableEq

/-- One iteration of the task-queue loop of startIpcWatcher for a single
file, src/index.ts lines 546-565.  The parsed argument is the JSON.parse
result: none models a parse exception. -/
def processTaskFile (env : IpcEnv) (registeredGroups : GroupsMap)
    (tasks : List ScheduledTask) (parsed : Option TaskIpcData)
    (sourceGroup fileName : String) : List ScheduledTask × FileDisposition :=
  match parsed with
  | none => (tasks, FileDisposition.quarantined (sourceGroup ++ "-" ++ fileName))
  | some data =>
    (processTaskIpc env registeredGroups tasks data sourceGroup,
      FileDisposition.deleted)

/-- Environment with failing external parsers, for concrete IPC scenarios. -/
def envNoParse : IpcEnv :=
  { cronNext := fun _ => none, parseDateIso := fun _ => none,
    nowPlusIso := fun _ => "", newTaskId := "task-1", nowIso := "t0" }

/-- Registered group A with family context tier. -/
def groupA : RegisteredGroup :=
  { name := "A", folder := "A", trigger := "@ai", added_at := "",
    contextTier := some ContextTier.family, containerConfig := none }

/-- A task owned by namespace B. -/
def taskB : ScheduledTask :=
  { id := "t1", group_folder := "B", chat_jid := "b@g.us", prompt := "p",
    schedule_type := "interval", schedule_value := "60000",
    context_mode := "isolated", next_run := some ("x"), status := "active",
    created_at := "t" }

/-- Pause command targeting task t1, dropped into namespace A's queue. -/
def dataPause : TaskIpcData :=
  { type := "pause_task", taskId := some ("t1"), prompt := none,
    schedule_type := none, schedule_value := none, context_mode := none,
    groupFolder := none }

/-- Cancel command targeting task t1, dropped into namespace A's queue. -/
def dataCancel : TaskIpcData :=
  { type := "cancel_task", taskId := some ("t1"), prompt := none,
    schedule_type := none, schedule_value := none, context_mode := none,
    groupFolder := none }

/-- C4 counterexample: a pause_task file in family-tier namespace A
targeting task t1 of namespace B is denied — the task keeps its status — but
the command file is deleted, not moved to the quarantine directory: the
denial branch only logs and returns, so the watcher unlinks the file; the
errors directory is reserved for processing exceptions. -/
theorem crossNamespaceTaskCommand_not_quarantined :
    sourceContextTier [("a@g.us", groupA)] ("A") = ContextTier.family ∧
    taskB.group_folder = "B" ∧
    processTaskFile envNoParse [("a@g.us", groupA)] [taskB] (some dataPause)
        ("A") ("cmd.json") = ([taskB], FileDisposition.deleted) ∧
    (processTaskFile envNoParse [("a@g.us", groupA)] [taskB] (some dataPause)
        ("A") ("cmd.json")).2 ≠ FileDisposition.quarantined ("A-cmd.json") := by
  refine ⟨by decide, by decide, by decide, by decide⟩

/-- C4 as amended: a pause_task, resume_task or cancel_task file in
namespace sourceGroup targeting a task owned by a different namespace is
denied whenever the acting tier derived from sourceGroup's contextTier is
not owner: the targeted task keeps its status and is not removed (the table
is unchanged), and the command file is deleted — not quarantined; quarantine
happens only on processing exceptions such as a JSON parse failure. -/
theorem crossNamespaceTaskCommandDenied
    (env : IpcEnv) (registeredGroups : GroupsMap) (tasks : List ScheduledTask)
    (data : TaskIpcData) (sourceGroup fileName taskId : String)
    (task : ScheduledTask)
    (htype : data.type = "pause_task" ∨ data.type = "resume_task" ∨
      data.type = "cancel_task")
    (hid : data.taskId = some taskId)
    (hfound : getTaskById tasks taskId = some task)
    (hcross : task.group_folder ≠ sourceGroup)
    (htier : sourceContextTier registeredGroups sourceGroup ≠ ContextTier.owner) :
    processTaskFile env registeredGroups tasks (some data) sourceGroup fileName =
      (tasks, FileDisposition.deleted) := by
  have hown : (sourceContextTier registeredGroups sourceGroup ==
      ContextTier.owner) = false := beq_eq_false_iff_ne.mpr htier
  have hgf : (task.group_folder == sourceGroup) = false :=
    beq_eq_false_iff_ne.mpr hcross
  rcases htype with ht | ht | ht <;>
    by_cases hemp : taskId = "" <;>
      simp [processTaskFile, processTaskIpc, ht, hid, hfound, hown, hgf, truthy, hemp]

/-- Closed instance of crossNamespaceTaskCommandDenied: the cancel command
from family-tier namespace A against B's task leaves the table unchanged and
the file is deleted. -/
theorem crossNamespaceTaskCommandDenied_witness :
    processTaskFile envNoParse [("a@g.us", groupA)] [taskB] (some dataCancel)
        ("A") ("cmd2.json") = ([taskB], FileDisposition.deleted) :=
  crossNamespaceTaskCommandDenied envNoParse [("a@g.us", groupA)] [taskB]
    dataCancel ("A") ("cmd2.json") ("t1") taskB (Or.inr (Or.inr rfl)) rfl
    (by decide) (by decide) (by decide)

/-- C9: a schedule_task command whose schedule value fails to parse for its
declared kind — a cron expression the cron library rejects, an interval that
is not a positive integer, or a once timestamp Date cannot parse — creates
no task: the scheduled_tasks table is unchanged, whatever the acting tier
and target group. -/
theorem invalidScheduleValueRejected
    (env : IpcEnv) (registeredGroups : GroupsMap) (tasks : List ScheduledTask)
    (data : TaskIpcData) (sourceGroup kind value : String)
    (htype : data.type = "schedule_task")
    (hkind : data.schedule_type = some kind)
    (hval : data.schedule_value = some value)
    (hbad : (kind = "cron" ∧ env.cronNext value = none) ∨
        (kind = "interval" ∧ ∀ ms, parseIntJs value = some ms → ms ≤ 0) ∨
        (kind = "once" ∧ env.parseDateIso value = none)) :
    processTaskIpc env registeredGroups tasks data sourceGroup = tasks := by
  have hnr : scheduleNextRun env kind value = none := by
    rcases hbad with ⟨hk, hc⟩ | ⟨hk, hc⟩ | ⟨hk, hc⟩ <;> subst hk
    · simp [scheduleNextRun, hc]
    · rcases hp : parseIntJs value with _ | ms
      · simp [scheduleNextRun, hp]
      · simp [scheduleNextRun, hp, hc ms hp]
    · simp [scheduleNextRun, hc]
  by_cases hg : (truthy data.prompt && truthy data.schedule_type &&
      truthy data.schedule_value && truthy data.groupFolder) = true
  · simp only [processTaskIpc, htype, hkind, hval, Option.getD_some]
    simp only [hkind] at hg
    simp only [hval] at hg
    simp [hg, hnr]
    all_goals intros
    all_goals split
    all_goals rfl
  · rw [Bool.not_eq_true] at hg
    simp [processTaskIpc, htype, hg]

/-- Order payload for the C9 witness: a cron task whose expression the cron
library rejects. -/
def dataBadCron : TaskIpcData :=
  { type := "schedule_task", taskId := none, prompt := some ("p"),
    schedule_type := some ("cron"), schedule_value := some ("not a cron"),
    context_mode := none, groupFolder := some ("A") }

/-- Closed instance of invalidScheduleValueRejected: the unparsable cron
expression creates nothing even for an authorized same-namespace request. -/
theorem invalidScheduleValueRejected_witness :
    processTaskIpc envNoParse [("a@g.us", groupA)] [] dataBadCron ("A") = [] :=
  invalidScheduleValueRejected envNoParse [("a@g.us", groupA)] [] dataBadCron
    ("A") ("cron") ("not a cron") rfl rfl rfl (Or.inl ⟨rfl, rfl⟩)

/-- Sentinel marker opening the structured result block,
src/container-runner.ts line 24. -/
def OUTPUT_START_MARKER : String := "---NANOCLAW_OUTPUT_START---"

/-- Sentinel marker closing the structured result block,
src/container-runner.ts line 25. -/
def OUTPUT_END_MARKER : String := "---NANOCLAW_OUTPUT_END---"

/-- First index at which the pattern occurs as a contiguous sublist; none
when it does not occur.  JS String.indexOf over characters. -/
def indexOfSub (pat : List Char) : List Char → Option Nat
  | [] => if pat.isEmpty then some 0 else none
  | c :: rest =>
    if pat.isPrefixOf (c :: rest) then some 0
    else (indexOfSub pat rest).map (fun i => i + 1)

/-- JS s.slice(a, b) over characters: empty when b is at or before a. -/
def jsSlice (s : String) (a b : Nat) : String :=
  String.mk ((s.toList.drop a).take (b - a))

/-- JS s.slice(-n): the last n characters (the whole string when shorter). -/
def jsSliceLast (s : String) (n : Nat) : String :=
  String.mk (s.toList.drop (s.toList.length - n))

/-- JS String.trim over characters: strip whitespace from both ends. -/
def jsTrim (s : String) : String :=
  String.mk (((s.toList.dropWhile Char.isWhitespace).reverse.dropWhile
    Char.isWhitespace).reverse)

/-- The last element of trimmed-stdout split on newlines,
src/container-runner.ts lines 574-575 (the backward-compatibility
fallback). -/
def lastStdoutLine (stdout : String) : String :=
  (jsSplit (jsTrim stdout) '\n').getLastD ("")

/-- Embeds the jsonLine extraction of runContainerAgent,
src/container-runner.ts lines 563-576: the trimmed text between the first
occurrences of the two sentinel markers when both occur in order, otherwise
the last line of trimmed stdout. -/
def extractJsonLine (stdout : String) : String :=
  let cs := stdout.toList
  match indexOfSub OUTPUT_START_MARKER.toList cs,
      indexOfSub OUTPUT_END_MARKER.toList cs with
  | some startIdx, some endIdx =>
    if startIdx < endIdx then
      jsTrim (jsSlice stdout (startIdx + OUTPUT_START_MARKER.length) endIdx)
    else lastStdoutLine stdout
  | some _, none => lastStdoutLine stdout
  | none, _ => lastStdoutLine stdout

/-- Structured result of a container run, src/container-runner.ts:
ContainerOutput. -/
structure ContainerOutput where
  status : String
  result : Option String
  newSessionId : Option String
  error : Option String
deriving DecidableEq

/-- Terminal event of one container process, abstracting the child-process
callbacks of src/container-runner.ts lines 415-618: the spawn error event,
the timeout timer firing (the process is killed), or the close event with
the exit code (none models a null code) and the captured, possibly
truncated, stdout and stderr. -/
inductive ContainerEvent
  | spawnError (message : String)
  | timedOut
  | exited (code : Option Int) (stdout stderr : String)
deriving DecidableEq

/-- Exit-code rendering of JS template interpolation: null prints null. -/
def exitCodeText : Option Int → String
  | some c => toString c
  | none => "null"

/-- Embeds the result resolution of runContainerAgent,
src/container-runner.ts lines 379-619, as a total function of the terminal
event.  jsonParse stands for the external JSON.parse applied to the
extracted line, returning the decoded result or the thrown error's message.
Every branch resolves to a ContainerOutput: the promise never rejects. -/
def runContainerOutcome (timeoutMs : Nat)
    (jsonParse : String → Except String ContainerOutput)
    (ev : ContainerEvent) : ContainerOutput :=
  match ev with
  | ContainerEvent.spawnError message =>
    { status := "error", result := none, newSessionId := none,
      error := some ("Container spawn error: " ++ message) }
  | ContainerEvent.timedOut =>
    { status := "error", result := none, newSessionId := none,
      error := some ("Container timed out after " ++ toString timeoutMs ++ "ms") }
  | ContainerEvent.exited code stdout stderr =>
    if code != some (0 : Int) then
      { status := "error", result := none, newSessionId := none,
        error := some ("Container exited with code " ++ exitCodeText code ++
          ": " ++ jsSliceLast stderr 200) }
    else
      match jsonParse (extractJsonLine stdout) with
      | Except.ok output => output
      | Except.error message =>
        { status := "error", result := none, newSessionId := none,
          error := some ("Failed to parse container output: " ++ message) }

/-- C6: runContainerAgent always resolves to a structured ContainerOutput
(runContainerOutcome is total on every terminal event, so nothing escapes
the boundary), and each failure mode yields status error with a null result:
spawn failure, timeout, a non-zero (or null) exit code, and an exit code 0
whose extracted stdout line JSON.parse rejects — the last with an error
message referencing the parse failure.  The extraction falls back to the
last non-empty stdout line when no sentinel-delimited block exists. -/
theorem runContainerOutcome_error_handling
    (timeoutMs : Nat) (jsonParse : String → Except String ContainerOutput)
    (message parseMsg : String) (code : Option Int) (stdout stderr : String)
    (hcode : code ≠ some 0)
    (hparse : jsonParse (extractJsonLine stdout) = Except.error parseMsg) :
    runContainerOutcome timeoutMs jsonParse (ContainerEvent.spawnError message) =
      { status := "error", result := none, newSessionId := none,
        error := some ("Container spawn error: " ++ message) } ∧
    runContainerOutcome timeoutMs jsonParse ContainerEvent.timedOut =
      { status := "error", result := none, newSessionId := none,
        error := some ("Container timed out after " ++ toString timeoutMs ++ "ms") } ∧
    runContainerOutcome timeoutMs jsonParse (ContainerEvent.exited code stdout stderr) =
      { status := "error", result := none, newSessionId := none,
        error := some ("Container exited with code " ++ exitCodeText code ++
          ": " ++ jsSliceLast stderr 200) } ∧
    runContainerOutcome timeoutMs jsonParse
        (ContainerEvent.exited (some 0) stdout stderr) =
      { status := "error", result := none, newSessionId := none,
        error := some ("Failed to parse container output: " ++ parseMsg) } := by
  have hcb : (code != some (0 : Int)) = true := bne_iff_ne.mpr hcode
  refine ⟨rfl, rfl, ?_, ?_⟩
  · simp [runContainerOutcome, hcb]
  · simp [runContainerOutcome, hparse]

/-- Closed instance of runContainerOutcome_error_handling: a process that
exits 0 printing only diagnostics (no sentinel block; the last non-empty
line is not JSON) resolves to the parse-failure error result, and an exit
code 1 resolves to the exit-code error result. -/
theorem runContainerOutcome_error_handling_witness :
    runContainerOutcome 300000
        (fun _ => Except.error ("Unexpected token h in JSON"))
        (ContainerEvent.exited (some 1) ("diagnostic noise\nall done") ("boom")) =
      { status := "error", result := none, newSessionId := none,
        error := some ("Container exited with code 1: boom") } ∧
    runContainerOutcome 300000
        (fun _ => Except.error ("Unexpected token h in JSON"))
        (ContainerEvent.exited (some 0) ("diagnostic noise\nall done") ("")) =
      { status := "error", result := none, newSessionId := none,
        error := some ("Failed to parse container output: Unexpected token h in JSON") } :=
  ⟨(runContainerOutcome_error_handling 300000
      (fun _ => Except.error ("Unexpected token h in JSON"))
      ("spawn") ("Unexpected token h in JSON") (some 1)
      ("diagnostic noise\nall done") ("boom") (by decide) rfl).2.2.1,
    (runContainerOutcome_error_handling 300000
      (fun _ => Except.error ("Unexpected token h in JSON"))
      ("spawn") ("Unexpected token h in JSON") (some 1)
      ("diagnostic noise\nall done") ("") (by decide) rfl).2.2.2⟩

/-- Bind-mount descriptor, src/container-runner.ts: VolumeMount. -/
structure VolumeMount where
  hostPath : String
  containerPath : String
  readonly : Bool
deriving DecidableEq

/-- Vault settings, src/types.ts: VaultSettings. -/
structure VaultSettings where
  path : String
  enabled : Bool
deriving DecidableEq

/-- Vault configuration, src/types.ts: VaultConfig. -/
structure VaultConfig where
  mainVault : Option VaultSettings
  privateVault : Option VaultSettings
deriving DecidableEq

/-- Host-side facts buildVolumeMounts consults outside the repository's own
logic: configured directories, the vault configuration, whether
validateVaultMount succeeds on an expanded path (realpath resolution,
blocked-pattern scan and directory check — it throws otherwise and the vault
is skipped), the tilde expansion, whether groups/global exists, and the raw
.env content when the file exists. -/
structure HostEnv where
  projectRoot : String
  groupsDir : String
  dataDir : String
  vaultConfig : VaultConfig
  vaultMountOk : String → Bool
  expandPath : String → String
  globalDirExists : Bool
  envFileContent : Option String

/-- path.join restricted to the forward-slash concatenations the modelled
code performs. -/
def pathJoin (a b : String) : String :=
  a ++ "/" ++ b

/-- Embeds getSessionDirPath of src/container-runner.ts lines 66-80. -/
def getSessionDirPath (env : HostEnv) (groupFolder : String) (tier : ContextTier) :
    String :=
  match tier with
  | ContextTier.owner => pathJoin env.dataDir ("sessions/owner/.claude")
  | ContextTier.family => pathJoin env.dataDir ("sessions/family/.claude")
  | ContextTier.friend =>
    pathJoin (pathJoin (pathJoin env.dataDir ("sessions/friends")) groupFolder)
      (".claude")

/-- Context-tier resolution of buildVolumeMounts, src/container-runner.ts
line 139: effectiveTier, else the group's contextTier, else owner for the
main group and friend otherwise. -/
def resolveContextTier (effectiveTier : Option ContextTier)
    (group : RegisteredGroup) (isMain : Bool) : ContextTier :=
  match effectiveTier with
  | some t => t
  | none =>
    match group.contextTier with
    | some t => t
    | none => if isMain then ContextTier.owner else ContextTier.friend

/-- Vault mounting of src/container-runner.ts lines 168-249: when the vault
is configured, enabled and its path truthy, expand it; mount it read-write
when validateVaultMount does not throw, skip it otherwise. -/
def vaultMounts (env : HostEnv) (settings : Option VaultSettings)
    (containerPath : String) : List VolumeMount :=
  match settings with
  | some s =>
    if s.enabled && s.path != "" then
      let expanded := env.expandPath s.path
      if env.vaultMountOk expanded then
        [{ hostPath := expanded, containerPath := containerPath, readonly := false }]
      else []
    else []
  | none => []

/-- The allowed credential variable names of the restricted environment
file, src/container-runner.ts line 326. -/
def allowedVars : List String :=
  ["CLAUDE_CODE_OAUTH_TOKEN", "ANTHROPIC_API_KEY"]

/-- Embeds the .env filtering of src/container-runner.ts lines 325-331: keep
the non-empty, non-comment lines that start with an allowed variable
assignment. -/
def filteredEnvLines (content : String) : List String :=
  (jsSplit content '\n').filter (fun line =>
    let trimmed := jsTrim line
    if trimmed == "" || ((jsTrim line).toList.headD ' ') == '#' then false
    else allowedVars.any (fun v => (v ++ "=").toList.isPrefixOf trimmed.toList))

/-- The additionalMounts of a group's container config,
group.containerConfig?.additionalMounts of src/container-runner.ts
line 347. -/
def additionalMountsOf (group : RegisteredGroup) : Option (List AdditionalMount) :=
  group.containerConfig.bind (fun cfg => cfg.additionalMounts)

/-- Embeds buildVolumeMounts of src/container-runner.ts lines 129-357.
validateAdditional stands for validateAdditionalMounts of
src/mount-security.ts, whose source is outside this snapshot; it is applied
only when the group configures additional mounts.  Mount order follows the
source: tier-dependent mounts, session directory, per-group IPC directory,
restricted environment file (only when .env exists and the filtered lines
are non-empty), then validated additional mounts. -/
def buildVolumeMounts (env : HostEnv)
    (validateAdditional : List AdditionalMount → List VolumeMount)
    (group : RegisteredGroup) (isMain : Bool)
    (effectiveTier : Option ContextTier) : List VolumeMount :=
  let contextTier := resolveContextTier effectiveTier group isMain
  let tierMounts : List VolumeMount :=
    match contextTier with
    | ContextTier.owner =>
      [{ hostPath := env.projectRoot, containerPath := "/workspace/project",
         readonly := false }] ++
      vaultMounts env env.vaultConfig.privateVault ("/workspace/vaults/private") ++
      vaultMounts env env.vaultConfig.mainVault ("/workspace/vaults/main") ++
      [{ hostPath := pathJoin env.groupsDir group.folder,
         containerPath := "/workspace/group", readonly := false }]
    | ContextTier.family =>
      vaultMounts env env.vaultConfig.mainVault ("/workspace/vaults/main") ++
      [{ hostPath := pathJoin env.groupsDir group.folder,
         containerPath := "/workspace/group", readonly := false }] ++
      (if env.globalDirExists then
        [{ hostPath := pathJoin env.groupsDir ("global"),
           containerPath := "/workspace/global", readonly := true }]
       else [])
    | ContextTier.friend =>
      [{ hostPath := pathJoin env.groupsDir group.folder,
         containerPath := "/workspace/group", readonly := false }] ++
      (if env.globalDirExists then
        [{ hostPath := pathJoin env.groupsDir ("global"),
           containerPath := "/workspace/global", readonly := true }]
       else [])
  let sessionMount : VolumeMount :=
    { hostPath := getSessionDirPath env group.folder contextTier,
      containerPath := "/home/node/.claude", readonly := false }
  let ipcMount : VolumeMount :=
    { hostPath := pathJoin (pathJoin env.dataDir ("ipc")) group.folder,
      containerPath := "/workspace/ipc", readonly := false }
  let envMounts : List VolumeMount :=
    match env.envFileContent with
    | some content =>
      if (filteredEnvLines content).isEmpty then []
      else
        [{ hostPath := pathJoin env.dataDir ("env"),
           containerPath := "/workspace/env-dir", readonly := true }]
    | none => []
  let extraMounts : List VolumeMount :=
    match additionalMountsOf group with
    | some ms => validateAdditional ms
    | none => []
  tierMounts ++ [sessionMount, ipcMount] ++ envMounts ++ extraMounts

/-- C7: an invocation whose resolved context tier is friend (for a group
with no additional mounts configured) gets exactly the group workspace
read-write, the global notes directory read-only when it exists, the
tier-scoped session directory, the per-group IPC directory, and the
restricted environment-file mount when the filtered .env is non-empty — and
in particular no project-root mount and no vault mount of either kind. -/
theorem friendTierMounts
    (env : HostEnv) (validateAdditional : List AdditionalMount → List VolumeMount)
    (group : RegisteredGroup) (isMain : Bool) (effectiveTier : Option ContextTier)
    (htier : resolveContextTier effectiveTier group isMain = ContextTier.friend)
    (hextra : additionalMountsOf group = none) :
    buildVolumeMounts env validateAdditional group isMain effectiveTier =
      [{ hostPath := pathJoin env.groupsDir group.folder,
         containerPath := "/workspace/group", readonly := false }] ++
      (if env.globalDirExists then
        [{ hostPath := pathJoin env.groupsDir ("global"),
           containerPath := "/workspace/global", readonly := true }]
       else []) ++
      [{ hostPath := getSessionDirPath env group.folder ContextTier.friend,
         containerPath := "/home/node/.claude", readonly := false },
       { hostPath := pathJoin (pathJoin env.dataDir ("ipc")) group.folder,
         containerPath := "/workspace/ipc", readonly := false }] ++
      (match env.envFileContent with
       | some content =>
         if (filteredEnvLines content).isEmpty then []
         else
           [{ hostPath := pathJoin env.dataDir ("env"),
              containerPath := "/workspace/env-dir", readonly := true }]
       | none => []) ∧
    ∀ m ∈ buildVolumeMounts env validateAdditional group isMain effectiveTier,
      m.containerPath ≠ "/workspace/project" ∧
      m.containerPath ≠ "/workspace/vaults/private" ∧
      m.containerPath ≠ "/workspace/vaults/main" := by
  have h1 : buildVolumeMounts env validateAdditional group isMain effectiveTier =
      [{ hostPath := pathJoin env.groupsDir group.folder,
         containerPath := "/workspace/group", readonly := false }] ++
      (if env.globalDirExists then
        [{ hostPath := pathJoin env.groupsDir ("global"),
           containerPath := "/workspace/global", readonly := true }]
       else []) ++
      [{ hostPath := getSessionDirPath env group.folder ContextTier.friend,
         containerPath := "/home/node/.claude", readonly := false },
       { hostPath := pathJoin (pathJoin env.dataDir ("ipc")) group.folder,
         containerPath := "/workspace/ipc", readonly := false }] ++
      (match env.envFileContent with
       | some content =>
         if (filteredEnvLines content).isEmpty then []
         else
           [{ hostPath := pathJoin env.dataDir ("env"),
              containerPath := "/workspace/env-dir", readonly := true }]
       | none => []) := by
    simp only [buildVolumeMounts, htier, hextra]
    rcases env.envFileContent with _ | content <;>
      rcases hg : env.globalDirExists with _ | _ <;> simp
  refine ⟨h1, ?_⟩
  intro m hm
  rw [h1] at hm
  rcases List.mem_append.mp hm with hm | hm
  · rcases List.mem_append.mp hm with hm | hm
    · rcases List.mem_append.mp hm with hm | hm
      · rw [List.mem_singleton] at hm
        subst hm
        simp
      · split at hm
        · rw [List.mem_singleton] at hm
          subst hm
          simp
        · simp at hm
    · simp only [List.mem_cons, List.not_mem_nil, or_false] at hm
      rcases hm with rfl | rfl <;> simp
  · rcases henv : env.envFileContent with _ | content <;> rw [henv] at hm
    · simp at hm
    · split at hm
      · simp at hm
        obtain ⟨-, rfl⟩ := hm
        simp
      · simp at hm

/-- Concrete host facts for the C7 witness. -/
def hostEnvEx : HostEnv :=
  { projectRoot := "/proj", groupsDir := "groups", dataDir := "data",
    vaultConfig := { mainVault := some { path := "/vault", enabled := true },
                     privateVault := some { path := "/pvault", enabled := true } },
    vaultMountOk := fun _ => true, expandPath := fun p => p,
    globalDirExists := true,
    envFileContent := some ("ANTHROPIC_API_KEY=k\n# comment\nSECRET=s") }

/-- Friend-tier group with no container config, for the C7 witness. -/
def groupFriendEx : RegisteredGroup :=
  { name := "F", folder := "friends1", trigger := "@ai", added_at := "",
    contextTier := none, containerConfig := none }

/-- Closed instance of friendTierMounts: with both vaults enabled and
validatable, a friend-tier invocation still gets only the group workspace,
the read-only global directory, the per-group session and IPC directories
and the read-only environment-file mount. -/
theorem friendTierMounts_witness :
    buildVolumeMounts hostEnvEx (fun _ => []) groupFriendEx false
        (some ContextTier.friend) =
      [{ hostPath := "groups/friends1", containerPath := "/workspace/group",
         readonly := false },
       { hostPath := "groups/global", containerPath := "/workspace/global",
         readonly := true },
       { hostPath := "data/sessions/friends/friends1/.claude",
         containerPath := "/home/node/.claude", readonly := false },
       { hostPath := "data/ipc/friends1", containerPath := "/workspace/ipc",
         readonly := false },
       { hostPath := "data/env", containerPath := "/workspace/env-dir",
         readonly := true }] :=
  ((friendTierMounts hostEnvEx (fun _ => []) groupFriendEx false
      (some ContextTier.friend) rfl rfl).1).trans (by decide)

end NanoClaw
